import Mathlib

/-
Verification development for the fruently delivery-reliability subsystem.

The shallow embedding below follows the Rust sources:
  src/src/fluent.rs            (client type, constructors, transport closures)
  src/src/forwardable/json.rs  (post and post_with_time of JsonForwardable)
  src/src/forwardable/mod.rs   (trait declarations)
Parts of the repository that the visible sources call but that are not under
src/ (the retry crate, store_buffer, record.rs, retry_conf.rs, error.rs) are
modelled from the specification and carry a doc comment saying so.

Impure effects are embedded as oracle inputs: the outcome of the TCP connect,
the number of bytes the operating system accepts on a write, the outcome of a
buffer append, and the wall clock, are all supplied as explicit arguments.
-/

set_option autoImplicit false
set_option linter.unusedVariables false

namespace Fruently

/-- Model of a std io Error value; only its identity matters to control flow. -/
structure IoErr where
  code : Nat
deriving DecidableEq

/-- Model of an rmp-serde encoder error value. -/
structure RmpErr where
  code : Nat
deriving DecidableEq

/-- Modelled from the spec: the DeliveryError taxonomy of section 3 and section 7
(src/error.rs, which defines FluentError, is not under src/): connect, write,
encode and address-resolution failures, each wrapping an underlying cause. -/
inductive FluentError where
  | connectFailure (e : IoErr)
  | writeFailure (e : IoErr)
  | encodeFailure (code : Nat)
  | addressResolutionFailure
deriving DecidableEq

/-- Model of a time::Tm value: epoch seconds plus sub-second nanoseconds. -/
structure Tm where
  sec : Int
  nsec : Nat
deriving DecidableEq

/-- Scalar payload values an application may supply. Numeric float values are
abstracted to their finiteness, the only property the encoder inspects. -/
inductive Scalar where
  | sstr (s : String)
  | sint (n : Int)
  | sfloat (finite : Bool)
deriving DecidableEq

/-- Application payload values (the serializable type T of the source is chosen
by the application and is outside this repository; it is modelled as scalars,
arrays of scalars and string-keyed maps of scalars). -/
inductive PValue where
  | scalar (v : Scalar)
  | arr (elems : List Scalar)
  | obj (fields : List (String × Scalar))
deriving DecidableEq

/-- A scalar is representable in the textual format iff it is not a non-finite
number. -/
def Scalar.representable : Scalar → Bool
  | .sstr _ => true
  | .sint _ => true
  | .sfloat finite => finite

/-- A payload is representable in the textual format iff every scalar in it is. -/
def PValue.representable : PValue → Bool
  | .scalar v => v.representable
  | .arr elems => elems.all Scalar.representable
  | .obj fields => fields.all (fun f => f.2.representable)

/-- JSON value tree produced by the textual encoder. Numeric literals arising
from floats are abstracted by the jnum constructor. -/
inductive JValue where
  | jstr (s : String)
  | jint (n : Int)
  | jnum
  | jarr (elems : List JValue)
  | jobj (fields : List (String × JValue))

/-- JSON encoding of one scalar. -/
def encodeScalar : Scalar → JValue
  | .sstr s => .jstr s
  | .sint n => .jint n
  | .sfloat _ => .jnum

/-- JSON encoding of a payload value. -/
def encodePV : PValue → JValue
  | .scalar v => encodeScalar v
  | .arr elems => .jarr (elems.map encodeScalar)
  | .obj fields => .jobj (fields.map (fun f => (f.1, encodeScalar f.2)))

/-- Textual rendering of one scalar; the float literal is abstracted. -/
def renderScalar : Scalar → String
  | .sstr s => "\"" ++ s ++ "\""
  | .sint n => toString n
  | .sfloat _ => "0.0"

/-- Textual rendering of a payload value. -/
def renderPV : PValue → String
  | .scalar v => renderScalar v
  | .arr elems => "[" ++ String.intercalate (",") (elems.map renderScalar) ++ "]"
  | .obj fields =>
      "\x7b" ++
        String.intercalate (",")
          (fields.map (fun f => "\"" ++ f.1 ++ "\":" ++ renderScalar f.2)) ++
      "\x7d"

/-- The single record shape of the source: tag, timestamp and payload
(src/record.rs declares it; its fields are as in the spec, section 3). -/
structure Record where
  tag : String
  time : Tm
  data : PValue
deriving DecidableEq

/-- Constructor Record::new as called from post_with_time. -/
def Record.new (tag : String) (time : Tm) (data : PValue) : Record :=
  ⟨tag, time, data⟩

/-- Modelled from the spec: serde_json::to_string of a Record (the Serialize
implementation lives in src/record.rs, not under src/). Spec section 4.2, Text
mode: a structured textual object with named fields tag, time, data; it fails
with EncodeFailure when data holds a value the textual format cannot represent.
This definition gives the value tree of that object. -/
def record_to_json (r : Record) : Except FluentError JValue :=
  if r.data.representable then
    .ok (.jobj [("tag", .jstr r.tag), ("time", .jint r.time.sec),
                ("data", encodePV r.data)])
  else .error (.encodeFailure 0)

/-- Modelled from the spec: the rendered text of serde_json::to_string of a
Record, the byte payload handed to the socket write; it fails exactly when
record_to_json does. -/
def record_to_string (r : Record) : Except FluentError String :=
  if r.data.representable then
    .ok ("\x7b\"tag\":\"" ++ r.tag ++ "\",\"time\":" ++ toString r.time.sec ++
         ",\"data\":" ++ renderPV r.data ++ "\x7d")
  else .error (.encodeFailure 0)

/-- Model of Result::is_ok. -/
def is_ok {ε α : Type} : Except ε α → Bool
  | .ok _ => true
  | .error _ => false

/-- Model of Result::is_err. -/
def is_err {ε α : Type} : Except ε α → Bool
  | .ok _ => false
  | .error _ => true

/-- Model of Result::unwrap_err as a total function: none marks the panic the
source would raise when unwrap_err is applied to an Ok value. -/
def unwrap_err {ε α : Type} : Except ε α → Option ε
  | .error e => some e
  | .ok _ => none

/-- Shallow embedding of Fluent::closure_send_as_json (src/src/fluent.rs lines
82 to 101). The connect outcome and the byte count the operating system accepts
for the write are oracle inputs; the message is produced by the modelled
serializer. A connect error maps to a connect failure and a write error to a
write failure, following the From conversions at each site; the source checks
only is_err on the write result, so the accepted byte count is ignored. -/
def closure_send_as_json (connectRes : Except IoErr Unit) (record : Record)
    (writeRes : Except IoErr Nat) : Except FluentError Unit :=
  match connectRes with
  | .error v => .error (.connectFailure v)
  | .ok _ =>
    match record_to_string record with
    | .error e => .error e
    | .ok _message =>
      match writeRes with
      | .error e => .error (.writeFailure e)
      | .ok _ => .ok ()

/-- Panic-tracking embedding of closure_send_as_json: the result is none when
the source would panic. The unwrap_err call on the write result is reached only
under the is_err guard, exactly as in the source. -/
def closure_send_as_json_checked (connectRes : Except IoErr Unit)
    (record : Record) (writeRes : Except IoErr Nat) :
    Option (Except FluentError Unit) :=
  match connectRes with
  | .error v => some (.error (.connectFailure v))
  | .ok _ =>
    match record_to_string record with
    | .error e => some (.error e)
    | .ok _message =>
      if is_err writeRes then
        match unwrap_err writeRes with
        | some e => some (.error (.writeFailure e))
        | none => none
      else some (.ok ())

/-- Panic-tracking embedding of Fluent::closure_send_as_msgpack
(src/src/fluent.rs lines 105 to 122); the rmp serializer writes straight into
the stream and its outcome is an oracle input. -/
def closure_send_as_msgpack_checked (connectRes : Except IoErr Unit)
    (serializeRes : Except RmpErr Unit) : Option (Except FluentError Unit) :=
  match connectRes with
  | .error v => some (.error (.connectFailure v))
  | .ok _ =>
    if is_err serializeRes then
      match unwrap_err serializeRes with
      | some e => some (.error (.encodeFailure e.code))
      | none => none
    else some (.ok ())

/-- Panic-tracking embedding of Fluent::closure_send_as_forward
(src/src/fluent.rs lines 126 to 143); identical control flow to the msgpack
closure with the batch shape serialized instead. -/
def closure_send_as_forward_checked (connectRes : Except IoErr Unit)
    (serializeRes : Except RmpErr Unit) : Option (Except FluentError Unit) :=
  match connectRes with
  | .error v => some (.error (.connectFailure v))
  | .ok _ =>
    if is_err serializeRes then
      match unwrap_err serializeRes with
      | some e => some (.error (.encodeFailure e.code))
      | none => none
    else some (.ok ())

/-- Connection lifecycle events of one transport call. -/
inductive NetEvent where
  | openConn
  | closeConn
deriving DecidableEq

/-- Trace embedding of closure_send_as_json: alongside the result, the list of
connection events in order. A successful connect opens the connection; the
explicit drop before each return in the Ok branch closes it, and on the early
return of the encode error the stream goes out of scope and is likewise
dropped. -/
def closure_send_as_json_tr (connectRes : Except IoErr Unit) (record : Record)
    (writeRes : Except IoErr Nat) :
    Except FluentError Unit × List NetEvent :=
  match connectRes with
  | .error v => (.error (.connectFailure v), [])
  | .ok _ =>
    match record_to_string record with
    | .error e => (.error e, [.openConn, .closeConn])
    | .ok _message =>
      match writeRes with
      | .error e => (.error (.writeFailure e), [.openConn, .closeConn])
      | .ok _ => (.ok (), [.openConn, .closeConn])

/-- Trace embedding of closure_send_as_msgpack. -/
def closure_send_as_msgpack_tr (connectRes : Except IoErr Unit)
    (serializeRes : Except RmpErr Unit) :
    Except FluentError Unit × List NetEvent :=
  match connectRes with
  | .error v => (.error (.connectFailure v), [])
  | .ok _ =>
    match serializeRes with
    | .error e => (.error (.encodeFailure e.code), [.openConn, .closeConn])
    | .ok _ => (.ok (), [.openConn, .closeConn])

/-- Trace embedding of closure_send_as_forward. -/
def closure_send_as_forward_tr (connectRes : Except IoErr Unit)
    (serializeRes : Except RmpErr Unit) :
    Except FluentError Unit × List NetEvent :=
  match connectRes with
  | .error v => (.error (.connectFailure v), [])
  | .ok _ =>
    match serializeRes with
    | .error e => (.error (.encodeFailure e.code), [.openConn, .closeConn])
    | .ok _ => (.ok (), [.openConn, .closeConn])

/-- Modelled from the spec: RetryConfiguration, section 3 (src/retry_conf.rs is
not under src/): a maximum attempt count, a backoff multiplier (an f64 in the
source, modelled as a rational), and an optional buffer path. -/
structure RetryConf where
  max : Nat
  multiplier : Rat
  buffer_path : Option String
deriving DecidableEq

/-- Modelled from the spec: RetryConf::new (src/retry_conf.rs is not under
src/). The spec leaves the default values unspecified beyond max_attempts at
least 1 and a multiplier above 1; the claims proved below do not depend on the
values chosen here. -/
def RetryConf.new : RetryConf := ⟨1, 2, none⟩

/-- The build accessor used by post_with_time: the pair of the maximum attempt
count and the multiplier. -/
def RetryConf.build (c : RetryConf) : Nat × Rat := (c.max, c.multiplier)

/-- The client type Fluent (src/src/fluent.rs lines 18 to 26): a destination
address, an owned copy of the tag (a Cow in the source), and the retry
configuration. -/
structure Fluent (A : Type) where
  addr : A
  tag : String
  conf : RetryConf

/-- Fluent::new (src/src/fluent.rs lines 43 to 52). -/
def Fluent.new {A : Type} (addr : A) (tag : String) : Fluent A :=
  ⟨addr, tag, RetryConf.new⟩

/-- Fluent::new_with_conf (src/src/fluent.rs lines 54 to 63). -/
def Fluent.new_with_conf {A : Type} (addr : A) (tag : String)
    (conf : RetryConf) : Fluent A :=
  ⟨addr, tag, conf⟩

/-- Fluent::get_addr (borrowing accessor). -/
def Fluent.get_addr {A : Type} (f : Fluent A) : A := f.addr

/-- Fluent::get_tag (borrowing accessor; the Cow is modelled by the string). -/
def Fluent.get_tag {A : Type} (f : Fluent A) : String := f.tag

/-- Fluent::get_conf (borrowing accessor). -/
def Fluent.get_conf {A : Type} (f : Fluent A) : RetryConf := f.conf

/-- Modelled from the spec: the retry controller loop, section 4.4 (the
retry_exponentially function comes from the external retry crate and is not
under src/). The attempt counter starts at 0; each attempt invokes the send
function; a value passing the condition is returned at once; otherwise, while
counter + 1 is below the attempt ceiling, the loop sleeps
base * multiplier ^ counter (base taken as one unit) and retries; on
exhaustion the last observed value is returned as the error. Attempt outcomes
are indexed: the value of attempt i is sendf i. The triple carries the result,
the number of invocations of sendf, and the sleep delays in order. rem is the
number of retries still allowed after the current attempt. -/
def retryAux {α : Type} (sendf : Nat → α) (cond : α → Bool) (mult : Rat) :
    Nat → Nat → Except α α × Nat × List Rat
  | counter, 0 =>
    let v := sendf counter
    if cond v then (.ok v, 1, []) else (.error v, 1, [])
  | counter, rem + 1 =>
    let v := sendf counter
    if cond v then (.ok v, 1, [])
    else
      let rest := retryAux sendf cond mult (counter + 1) rem
      (rest.1, rest.2.1 + 1, mult ^ counter :: rest.2.2)

/-- Modelled from the spec: retry_exponentially with a ceiling of max attempts;
the first attempt is number 0, so max - 1 retries remain after it. -/
def retry_exponentially {α : Type} (max : Nat) (mult : Rat) (sendf : Nat → α)
    (cond : α → Bool) : Except α α × Nat × List Rat :=
  retryAux sendf cond mult 0 (max - 1)

/-- Modelled from the spec: store_buffer::maybe_write_events, section 4.5
(src/store_buffer.rs is not under src/). With a buffer path configured the
record is appended durably and the call reports success, absorbing the delivery
failure; the outcome of the append itself is an oracle input, and a failed
append surfaces the error. With no buffer path the error propagates unchanged. -/
def maybe_write_events (conf : RetryConf) (record : Record) (err : FluentError)
    (appendOk : Bool) : Except FluentError Unit :=
  match conf.buffer_path with
  | some _ => if appendOk then .ok () else .error err
  | none => .error err

/-- Oracle inputs of one post call: per-attempt connect outcomes, per-attempt
write outcomes (the byte count the operating system accepts), the outcome of a
buffer append, and the wall clock read by time::now. -/
structure NetOracle where
  connect : Nat → Except IoErr Unit
  write : Nat → Except IoErr Nat
  appendOk : Bool
  now : Tm

/-- Result of JsonForwardable::post_with_time (src/src/forwardable/json.rs
lines 43 to 59): build the Record from the owned tag, the given time and the
payload; drive closure_send_as_json through the retry controller with the
is_ok condition; on success return unit, on exhaustion hand the record and the
last delivery error to maybe_write_events. The let bindings of the source are
inlined. The source guarantees the exhaustion value failed the is_ok
condition, so the last branch below is unreachable. -/
def post_with_time_result {A : Type} (c : Fluent A) (data : PValue) (time : Tm)
    (o : NetOracle) : Except FluentError Unit :=
  match (retry_exponentially (c.get_conf.build).1 (c.get_conf.build).2
      (fun i => closure_send_as_json (o.connect i)
        (Record.new c.get_tag time data) (o.write i)) is_ok).1 with
  | .ok _ => .ok ()
  | .error (.error err) =>
      maybe_write_events c.get_conf (Record.new c.get_tag time data) err
        o.appendOk
  | .error (.ok _) => .ok ()

/-- JsonForwardable::post_with_time with the client value threaded through: the
source takes self by value and reads it only through the immutable accessors
get_tag, get_addr and get_conf, so the client after the call is the unchanged
client. -/
def post_with_time {A : Type} (c : Fluent A) (data : PValue) (time : Tm)
    (o : NetOracle) : Except FluentError Unit × Fluent A :=
  (post_with_time_result c data time o, c)

/-- JsonForwardable::post (src/src/forwardable/json.rs lines 34 to 40): read
the wall clock and delegate to post_with_time. -/
def post {A : Type} (c : Fluent A) (data : PValue) (o : NetOracle) :
    Except FluentError Unit × Fluent A :=
  post_with_time c data o.now o

/-- C7: Fluent::new stores the address, an owned copy of the tag and the
default configuration, and agrees with Fluent::new_with_conf applied to
RetryConf::new; new_with_conf merely stores its three arguments. Both are pure
value constructors in the embedding, mirroring that the source performs no
input or output in them. -/
theorem fluent_new_agrees_with_new_with_conf {A : Type} (addr : A)
    (tag : String) (conf : RetryConf) :
    Fluent.new addr tag = Fluent.new_with_conf addr tag RetryConf.new
    ∧ (Fluent.new addr tag).addr = addr
    ∧ (Fluent.new addr tag).tag = tag
    ∧ (Fluent.new addr tag).conf = RetryConf.new
    ∧ (Fluent.new_with_conf addr tag conf).addr = addr
    ∧ (Fluent.new_with_conf addr tag conf).tag = tag
    ∧ (Fluent.new_with_conf addr tag conf).conf = conf :=
  ⟨rfl, rfl, rfl, rfl, rfl, rfl, rfl⟩

/-- C9: post is exactly post_with_time at the wall-clock time read at the
moment of the call. -/
theorem post_eq_post_with_time_at_now {A : Type} (c : Fluent A)
    (data : PValue) (o : NetOracle) :
    post c data o = post_with_time c data o.now o :=
  rfl

/-- C8: no post or post_with_time call mutates the client: the client after a
call has the same address, tag and configuration, and a second post call on
the client coming out of a first call is the same as a second call on the
original client. -/
theorem post_with_time_preserves_client {A : Type} (c : Fluent A)
    (d1 d2 : PValue) (t1 t2 : Tm) (o1 o2 : NetOracle) :
    (post_with_time c d1 t1 o1).2 = c
    ∧ (post_with_time c d1 t1 o1).2.addr = c.addr
    ∧ (post_with_time c d1 t1 o1).2.tag = c.tag
    ∧ (post_with_time c d1 t1 o1).2.conf = c.conf
    ∧ post_with_time (post_with_time c d1 t1 o1).2 d2 t2 o2
        = post_with_time c d2 t2 o2
    ∧ (post c d1 o1).2 = c :=
  ⟨rfl, rfl, rfl, rfl, rfl, rfl⟩

/-- C5: each transport send closure closes every connection it opens before it
returns: in every execution trace the open and close event counts agree, for
the json, msgpack and forward closures alike, on the success path and on every
failure path. -/
theorem closure_send_closes_connection (cr : Except IoErr Unit)
    (record : Record) (wr : Except IoErr Nat) (sr sr2 : Except RmpErr Unit) :
    (closure_send_as_json_tr cr record wr).2.count NetEvent.openConn
      = (closure_send_as_json_tr cr record wr).2.count NetEvent.closeConn
    ∧ (closure_send_as_msgpack_tr cr sr).2.count NetEvent.openConn
      = (closure_send_as_msgpack_tr cr sr).2.count NetEvent.closeConn
    ∧ (closure_send_as_forward_tr cr sr2).2.count NetEvent.openConn
      = (closure_send_as_forward_tr cr sr2).2.count NetEvent.closeConn := by
  refine ⟨?_, ?_, ?_⟩
  · unfold closure_send_as_json_tr
    cases cr with
    | error v => rfl
    | ok u =>
      cases h : record_to_string record with
      | error e => simp [h]
      | ok m => cases wr <;> simp [h]
  · unfold closure_send_as_msgpack_tr
    cases cr with
    | error v => rfl
    | ok u => cases sr <;> rfl
  · unfold closure_send_as_forward_tr
    cases cr with
    | error v => rfl
    | ok u => cases sr2 <;> rfl

/-- C10: the transport send closures are total and never panic: the unwrap_err
call on the write or serialize result is reached only under the is_err guard,
so the panic-tracking embeddings always produce a value. -/
theorem closure_send_never_panics (cr : Except IoErr Unit) (record : Record)
    (wr : Except IoErr Nat) (sr sr2 : Except RmpErr Unit) :
    (closure_send_as_json_checked cr record wr).isSome = true
    ∧ (closure_send_as_msgpack_checked cr sr).isSome = true
    ∧ (closure_send_as_forward_checked cr sr2).isSome = true := by
  refine ⟨?_, ?_, ?_⟩
  · unfold closure_send_as_json_checked
    cases cr with
    | error v => rfl
    | ok u =>
      cases h : record_to_string record with
      | error e => simp [h]
      | ok m => cases wr <;> simp [h, is_err, unwrap_err]
  · unfold closure_send_as_msgpack_checked
    cases cr with
    | error v => rfl
    | ok u => cases sr <;> simp [is_err, unwrap_err]
  · unfold closure_send_as_forward_checked
    cases cr with
    | error v => rfl
    | ok u => cases sr2 <;> simp [is_err, unwrap_err]

/-- C6: in text mode the encoder renders the record as a JSON object with the
named fields tag, time and data, never as a positional array, and it returns
an encode failure exactly when the payload holds a value the textual format
cannot represent. -/
theorem text_mode_uses_named_fields (r : Record) :
    (r.data.representable = true →
      record_to_json r
        = .ok (.jobj [("tag", .jstr r.tag), ("time", .jint r.time.sec),
                      ("data", encodePV r.data)]))
    ∧ (r.data.representable = false →
      record_to_json r = .error (.encodeFailure 0))
    ∧ (∀ j, record_to_json r = .ok j → ∀ fields, j ≠ JValue.jarr fields) := by
  refine ⟨?_, ?_, ?_⟩
  · intro h
    unfold record_to_json
    rw [h]
    rfl
  · intro h
    unfold record_to_json
    rw [h]
    rfl
  · intro j hj fields
    unfold record_to_json at hj
    by_cases h : r.data.representable
    · rw [if_pos h] at hj
      cases hj
      intro hc
      cases hc
    · rw [if_neg h] at hj
      cases hj

/-- Witness for text_mode_uses_named_fields at a concrete record. -/
theorem text_mode_uses_named_fields_witness :
    record_to_json ⟨("t"), ⟨5, 0⟩, .scalar (.sint 7)⟩
      = .ok (.jobj [("tag", .jstr ("t")), ("time", .jint 5),
                    ("data", .jint 7)]) :=
  (text_mode_uses_named_fields ⟨("t"), ⟨5, 0⟩, .scalar (.sint 7)⟩).1 rfl

/-- C1, failing input for the short-write case: with the connection open and
the operating system accepting only 1 byte of the 29-byte encoded payload
(the write returns Ok 1), closure_send_as_json still returns success; the
short write is not surfaced as a write failure. -/
theorem short_write_reported_as_success :
    record_to_string ⟨("t"), ⟨0, 0⟩, .scalar (.sint 0)⟩
        = .ok ("\x7b\"tag\":\"t\",\"time\":0,\"data\":0\x7d")
    ∧ 1 < ("\x7b\"tag\":\"t\",\"time\":0,\"data\":0\x7d").length
    ∧ closure_send_as_json (.ok ()) ⟨("t"), ⟨0, 0⟩, .scalar (.sint 0)⟩
        (.ok 1) = .ok () :=
  ⟨rfl, by decide, rfl⟩

/-- Helper: when every attempt in the window fails the condition, the loop
returns the value of the last attempt as the error and invokes the send
function once per allowed attempt. -/
theorem retryAux_all_fail {α : Type} (sendf : Nat → α) (cond : α → Bool)
    (mult : Rat) :
    ∀ (rem counter : Nat),
      (∀ i, counter ≤ i → i ≤ counter + rem → cond (sendf i) = false) →
      (retryAux sendf cond mult counter rem).1
          = .error (sendf (counter + rem))
      ∧ (retryAux sendf cond mult counter rem).2.1 = rem + 1 := by
  intro rem
  induction rem with
  | zero =>
    intro counter h
    have hc : cond (sendf counter) = false := h counter le_rfl (by omega)
    simp [retryAux, hc]
  | succ r ih =>
    intro counter h
    have hc : cond (sendf counter) = false := h counter le_rfl (by omega)
    have ihc := ih (counter + 1) (fun i h1 h2 => h i (by omega) (by omega))
    have harith : counter + 1 + r = counter + (r + 1) := by omega
    rw [harith] at ihc
    simp [retryAux, hc, ihc.1, ihc.2]

/-- Helper: when the attempts before offset j fail and attempt j succeeds,
with j inside the window, the loop returns the succeeding value and invokes
the send function exactly j + 1 times. -/
theorem retryAux_first_success {α : Type} (sendf : Nat → α) (cond : α → Bool)
    (mult : Rat) :
    ∀ (j rem counter : Nat), j ≤ rem →
      (∀ i, counter ≤ i → i < counter + j → cond (sendf i) = false) →
      cond (sendf (counter + j)) = true →
      (retryAux sendf cond mult counter rem).1 = .ok (sendf (counter + j))
      ∧ (retryAux sendf cond mult counter rem).2.1 = j + 1 := by
  intro j
  induction j with
  | zero =>
    intro rem counter hj hf hs
    rw [Nat.add_zero] at hs
    cases rem with
    | zero => simp [retryAux, hs]
    | succ r => simp [retryAux, hs]
  | succ jj ih =>
    intro rem counter hj hf hs
    cases rem with
    | zero => omega
    | succ r =>
      have hc : cond (sendf counter) = false := hf counter le_rfl (by omega)
      have harith : counter + 1 + jj = counter + (jj + 1) := by omega
      have ihc := ih r (counter + 1) (by omega)
        (fun i h1 h2 => hf i (by omega) (by omega)) (by rw [harith]; exact hs)
      rw [harith] at ihc
      simp [retryAux, hc, ihc.1, ihc.2]

/-- C2: the retry controller invokes the send function exactly min k max
times, k being the 1-based index of the first attempt passing the condition;
in particular a first-attempt success means exactly one invocation whatever
the ceiling, and a ceiling of one means a single attempt with no retry and no
sleep. -/
theorem retry_invocation_count {α : Type} (sendf : Nat → α) (cond : α → Bool)
    (mult : Rat) (max k : Nat) (hmax : 1 ≤ max) (hk : 1 ≤ k)
    (hbefore : ∀ i, i < k - 1 → cond (sendf i) = false)
    (hsucc : cond (sendf (k - 1)) = true) :
    (retry_exponentially max mult sendf cond).2.1 = min k max
    ∧ (cond (sendf 0) = true →
        (retry_exponentially max mult sendf cond).2.1 = 1)
    ∧ (max = 1 →
        (retry_exponentially max mult sendf cond).2.1 = 1
        ∧ (retry_exponentially max mult sendf cond).2.2 = []) := by
  refine ⟨?_, ?_, ?_⟩
  · rcases le_or_lt k max with hle | hlt
    · have h := retryAux_first_success sendf cond mult (k - 1) (max - 1) 0
        (by omega) (fun i h1 h2 => hbefore i (by omega))
        (by rw [Nat.zero_add]; exact hsucc)
      unfold retry_exponentially
      rw [h.2]
      omega
    · have h := retryAux_all_fail sendf cond mult (max - 1) 0
        (fun i h1 h2 => hbefore i (by omega))
      unfold retry_exponentially
      rw [h.2]
      omega
  · intro h0
    have h := retryAux_first_success sendf cond mult 0 (max - 1) 0
      (by omega) (fun i h1 h2 => by omega) (by rw [Nat.add_zero]; exact h0)
    unfold retry_exponentially
    rw [h.2]
  · intro h1
    subst h1
    unfold retry_exponentially
    cases hc : cond (sendf 0) <;> simp [retryAux, hc]

/-- Witness for retry_invocation_count: with a ceiling of 3 and the first
success on attempt index 1 (so k = 2), the send function is invoked
min 2 3 = 2 times. -/
theorem retry_invocation_count_witness :
    1 ≤ 3 ∧ 1 ≤ 2
    ∧ (retry_exponentially 3 (2 : Rat) (fun i => decide (i = 1))
        (fun b => b)).2.1 = min 2 3 :=
  ⟨by decide, by decide,
    (retry_invocation_count (fun i => decide (i = 1)) (fun b => b) (2 : Rat)
      3 2 (by decide) (by decide)
      (by
        intro i hi
        have hz : i = 0 := by omega
        subst hz
        rfl)
      (by decide)).1⟩

/-- C4: when the controller exhausts every attempt, the error it returns is
the value observed on the last attempt, not an earlier one. -/
theorem retry_returns_last_error {α : Type} (sendf : Nat → α)
    (cond : α → Bool) (mult : Rat) (max : Nat) (hmax : 1 ≤ max)
    (hall : ∀ i, i < max → cond (sendf i) = false) :
    (retry_exponentially max mult sendf cond).1
      = .error (sendf (max - 1)) := by
  have h := retryAux_all_fail sendf cond mult (max - 1) 0
    (fun i h1 h2 => hall i (by omega))
  unfold retry_exponentially
  rw [h.1, Nat.zero_add]

/-- Witness for retry_returns_last_error: two attempts, both failing with
distinct errors; the controller returns the error of attempt index 1. -/
theorem retry_returns_last_error_witness :
    (retry_exponentially 2 (2 : Rat)
        (fun i => (Except.error i : Except Nat Unit)) is_ok).1
      = .error (Except.error 1) := by
  have h := retry_returns_last_error
    (fun i => (Except.error i : Except Nat Unit)) is_ok (2 : Rat) 2
    (by decide)
    (by
      intro i hi
      rfl)
  simpa using h

/-- C3: when a post call exhausts all its delivery attempts, a configured
buffer path together with a successful append absorbs the failure and the
call returns success, while with no buffer path configured the call returns
the terminal delivery error unchanged. -/
theorem post_with_time_buffer_fallback {A : Type} (c : Fluent A)
    (data : PValue) (t : Tm) (o : NetOracle) (e : FluentError)
    (hmax : 1 ≤ c.conf.max)
    (hall : ∀ i, i < c.conf.max →
      is_ok (closure_send_as_json (o.connect i) (Record.new c.tag t data)
        (o.write i)) = false)
    (hlast : closure_send_as_json (o.connect (c.conf.max - 1))
        (Record.new c.tag t data) (o.write (c.conf.max - 1)) = .error e) :
    ((c.conf.buffer_path).isSome = true → o.appendOk = true →
      (post_with_time c data t o).1 = .ok ())
    ∧ (c.conf.buffer_path = none →
      (post_with_time c data t o).1 = .error e) := by
  have h := (retryAux_all_fail
    (fun i => closure_send_as_json (o.connect i) (Record.new c.tag t data)
      (o.write i))
    is_ok c.conf.multiplier (c.conf.max - 1) 0
    (fun i h1 h2 => hall i (by omega))).1
  rw [Nat.zero_add] at h
  have hres : (post_with_time c data t o).1
      = maybe_write_events c.conf (Record.new c.tag t data) e o.appendOk := by
    show post_with_time_result c data t o = _
    simp only [post_with_time_result, retry_exponentially, Fluent.get_conf,
      Fluent.get_tag, RetryConf.build]
    rw [h]
    simp only [hlast]
  refine ⟨?_, ?_⟩
  · intro hb ha
    rw [hres]
    unfold maybe_write_events
    cases hbp : c.conf.buffer_path with
    | none => rw [hbp] at hb; simp at hb
    | some p => rw [ha]; rfl
  · intro hb
    rw [hres]
    unfold maybe_write_events
    rw [hb]

/-- Witness for post_with_time_buffer_fallback: ceiling 2, every connect
refused, buffer path configured and the append succeeding; the post call
reports success. -/
theorem post_with_time_buffer_fallback_witness :
    (post_with_time
        (Fluent.new_with_conf (0 : Nat) ("t") ⟨2, 2, some ("buf")⟩)
        (.scalar (.sint 7)) ⟨5, 0⟩
        ⟨fun _ => .error ⟨3⟩, fun _ => .ok 0, true, ⟨5, 0⟩⟩).1 = .ok () := by
  have h := post_with_time_buffer_fallback
    (Fluent.new_with_conf (0 : Nat) ("t") ⟨2, 2, some ("buf")⟩)
    (.scalar (.sint 7)) ⟨5, 0⟩
    ⟨fun _ => .error ⟨3⟩, fun _ => .ok 0, true, ⟨5, 0⟩⟩
    (.connectFailure ⟨3⟩) (by decide)
    (by
      intro i hi
      rfl)
    rfl
  exact h.1 rfl rfl

end Fruently
